import Mathlib

/-!
Verification development for the ChainWatch event pipeline.

This file gives a shallow embedding, in Lean 4, of the parts of the
ChainWatch codebase that the verified properties talk about:

* `TransferFilter` (src/src/analytics/categorizer.js): the filter chain
  applied to every incoming transfer event — duplicate check, minimum
  amount threshold, watched-wallet list, per-address cooldown.
* the transfer dispatch handler (src/src/index.js, `setupEventHandlers`):
  which filter verdicts reach the downstream sinks.
* `BlockchainListener.attemptReconnect` (src/src/listener.js): the linear
  backoff reconnection state machine.
* `ConfigWatcher.loadConfig` / `validateConfig` (src/src/core/alertRules.js):
  config reload and its error behaviour.
* `TelegramNotifier.sendAlert` (src/src/analytics/categorizer.js): the
  bounded retry loop of the notification sink.

Modelling conventions:

* JavaScript numbers that hold amounts are modelled as `Option ℚ`: the
  value `none` stands for `NaN` (the result of `parseFloat` on a
  non-numeric string); every JS comparison `NaN < x` is `false`, which the
  definitions reproduce explicitly.
* Timestamps (`Date.now()`) are integers in milliseconds, passed as an
  explicit `now` argument.
* A JS `Set` kept in insertion order is a `List` without duplicates;
  `Set.add` appends iff the element is absent.
* A JS `Map` is an association list in insertion order; `Map.set`
  overwrites in place when the key exists and appends otherwise.
* `String.prototype.toLowerCase` is modelled by `strToLower` (pointwise
  `Char.toLower`), and substring containment (`String.prototype.includes`)
  by `containsSubstr`; both are executable so that concrete runs reduce.
* Effects (scheduling a timer, emitting an event, calling the Telegram
  API) are reified as returned actions / supplied outcome oracles.
-/

namespace ChainWatch

/-- Model of `s.toLowerCase()` on a JS string: lower-case every character. -/
def strToLower (s : String) : String := ⟨s.data.map Char.toLower⟩

/-- Test `listIsPre pat l`: `pat` occurs at the head of `l`. -/
def listIsPre : List Char → List Char → Bool
  | [], _ => true
  | _ :: _, [] => false
  | a :: as, b :: bs => a == b && listIsPre as bs

/-- Test `listContainsSub pat l`: `pat` occurs contiguously somewhere in `l`. -/
def listContainsSub (pat : List Char) : List Char → Bool
  | [] => listIsPre pat []
  | c :: cs => listIsPre pat (c :: cs) || listContainsSub pat cs

/-- Model of `s.includes(pat)` on JS strings. -/
def containsSubstr (s pat : String) : Bool := listContainsSub pat.data s.data

/-- Model of `Map.prototype.get`: value of the first (unique) entry with this key. -/
def mapGet (m : List (String × Int)) (k : String) : Option Int :=
  (m.find? (fun p => p.1 == k)).map Prod.snd

/-- Model of `Map.prototype.set`: overwrite in place if the key exists, else append. -/
def mapSet : List (String × Int) → String → Int → List (String × Int)
  | [], k, v => [(k, v)]
  | p :: rest, k, v => if p.1 == k then (k, v) :: rest else p :: mapSet rest k v

/-- A normalized transfer event as emitted by the listener
(src/src/listener.js).  Only the fields the filter chain reads are kept.
`amount` holds the `parseFloat` of the human-unit amount string: `none`
models `NaN` (unparseable amount).  `fromAddr`/`toAddr` are the `from`/`to`
fields (`from` is a Lean keyword). -/
structure TransferEvent where
  transactionHash : String
  fromAddr : String
  toAddr : String
  amount : Option ℚ
  deriving DecidableEq, Repr

/-- One entry of `config.watchedWallets`: either a plain address string or
an object `{address, enabled}`; an absent `enabled` field is `none`. -/
inductive WalletEntry where
  | str (address : String)
  | obj (address : String) (enabled : Option Bool)
  deriving DecidableEq, Repr

/-- The address carried by a wallet entry
(`typeof w === "string" ? w : w.address`, with quotes as in JS). -/
def WalletEntry.address : WalletEntry → String
  | .str a => a
  | .obj a _ => a

/-- The enabled-filter of `checkWatchedWallets`:
`typeof w === "string" || w.enabled !== false`. -/
def WalletEntry.isEnabled : WalletEntry → Bool
  | .str _ => true
  | .obj _ e => !(e == some false)

/-- The slice of the configuration that `TransferFilter` reads.
`thresholdAmount` is the `parseFloat` of the configured value (`none` =
`NaN`/absent), `cooldownSeconds` the `parseInt` of the configured value. -/
structure FilterConfig where
  thresholdAmount : Option ℚ
  watchedWallets : List WalletEntry
  cooldownSeconds : Option Int
  deriving DecidableEq, Repr

/-- Mutable state of a `TransferFilter` instance:
`processedTxHashes` (a JS `Set` in insertion order) and `lastAlertTime`
(a JS `Map` from lower-cased address to timestamp in ms). -/
structure FilterState where
  processedTxHashes : List String
  lastAlertTime : List (String × Int)
  deriving DecidableEq, Repr

/-- Result of one individual check (`checkThreshold`, `checkWatchedWallets`,
`checkCooldown`): `{passed, reason}`; a passing check carries no reason,
modelled as `""`. -/
structure CheckResult where
  passed : Bool
  reason : String
  deriving DecidableEq, Repr

/-- The verdict returned by `TransferFilter.filter`:
`{passed, showInUI, reason}`. -/
structure FilterResult where
  passed : Bool
  showInUI : Bool
  reason : String
  deriving DecidableEq, Repr

namespace TransferFilter

/-- Constant `this.maxCacheSize` (categorizer.js, TransferFilter constructor). -/
def maxCacheSize : Nat := 10000

/-- Method `TransferFilter.isDuplicate`: membership in the seen-set. -/
def isDuplicate (st : FilterState) (txHash : String) : Bool :=
  st.processedTxHashes.contains txHash

/-- Method `TransferFilter.markProcessed`: when the seen-set has reached
`maxCacheSize`, delete the 1000 oldest hashes, then add the new hash. -/
def markProcessed (st : FilterState) (txHash : String) : FilterState :=
  let hashes :=
    if st.processedTxHashes.length ≥ maxCacheSize then
      let toDelete := st.processedTxHashes.take 1000
      st.processedTxHashes.filter (fun h => !(toDelete.contains h))
    else
      st.processedTxHashes
  if hashes.contains txHash then
    { st with processedTxHashes := hashes }
  else
    { st with processedTxHashes := hashes ++ [txHash] }

/-- Method `TransferFilter.checkThreshold`:
`threshold = parseFloat(config.thresholdAmount) || 0` (so `NaN` and absent
become `0`), `eventAmount = parseFloat(amount)`, and the event fails iff
`eventAmount < threshold` — with `NaN < t` being `false` in JS. -/
def checkThreshold (config : FilterConfig) (amount : Option ℚ) : CheckResult :=
  let threshold : ℚ := config.thresholdAmount.getD 0
  match amount with
  | none => ⟨true, ""⟩
  | some eventAmount =>
      if eventAmount < threshold then ⟨false, "below_threshold"⟩ else ⟨true, ""⟩

/-- Method `TransferFilter.checkWatchedWallets`: pass when the list is empty;
otherwise compare the lower-cased `from`/`to` against the lower-cased
addresses of the enabled entries. -/
def checkWatchedWallets (config : FilterConfig) (fromAddr toAddr : String) :
    CheckResult :=
  let watchedWallets := config.watchedWallets
  if watchedWallets.length = 0 then ⟨true, ""⟩
  else
    let normalizedFrom := strToLower fromAddr
    let normalizedTo := strToLower toAddr
    let normalizedWatched :=
      (watchedWallets.filter WalletEntry.isEnabled).map
        (fun w => strToLower w.address)
    let fromWatched := normalizedWatched.contains normalizedFrom
    let toWatched := normalizedWatched.contains normalizedTo
    if !fromWatched && !toWatched then ⟨false, "not_watched"⟩ else ⟨true, ""⟩

/-- The loop body of `checkCooldown` for one (already lower-cased) address:
`lastAlert && (now - lastAlert) < cooldownMs` — note that a stored
timestamp of `0` is falsy in JS, so it never triggers the cooldown. -/
def addrInCooldown (st : FilterState) (cooldownMs now : Int) (addr : String) :
    Bool :=
  match mapGet st.lastAlertTime addr with
  | some lastAlert => lastAlert != 0 && decide (now - lastAlert < cooldownMs)
  | none => false

/-- Method `TransferFilter.checkCooldown`:
`cooldownSeconds = parseInt(config.cooldownSeconds) || 0`; when `0` the
check passes; otherwise the event fails with reason `cooldown` as soon as
either the `from` or the `to` address alerted within `cooldownSeconds`. -/
def checkCooldown (config : FilterConfig) (st : FilterState)
    (fromAddr toAddr : String) (now : Int) : CheckResult :=
  let cooldownSeconds : Int := config.cooldownSeconds.getD 0
  if cooldownSeconds = 0 then ⟨true, ""⟩
  else
    let cooldownMs := cooldownSeconds * 1000
    let addresses := [strToLower fromAddr, strToLower toAddr]
    if addresses.any (addrInCooldown st cooldownMs now) then
      ⟨false, "cooldown"⟩
    else ⟨true, ""⟩

/-- Method `TransferFilter.updateCooldown`: stamp both addresses with `now`, then
delete every entry older than one hour. -/
def updateCooldown (st : FilterState) (fromAddr toAddr : String) (now : Int) :
    FilterState :=
  let m1 := mapSet st.lastAlertTime (strToLower fromAddr) now
  let m2 := mapSet m1 (strToLower toAddr) now
  let oneHourAgo := now - 3600000
  { st with lastAlertTime := m2.filter (fun p => !(decide (p.2 < oneHourAgo))) }

/-- Method `TransferFilter.filter`: duplicate check, mark-processed, threshold,
watched wallets, cooldown, in this order; a full pass updates the cooldown
map and yields `matched`. -/
def filter (config : FilterConfig) (st : FilterState) (e : TransferEvent)
    (now : Int) : FilterResult × FilterState :=
  if isDuplicate st e.transactionHash then
    (⟨false, false, "duplicate"⟩, st)
  else
    let st1 := markProcessed st e.transactionHash
    let thresholdResult := checkThreshold config e.amount
    if thresholdResult.passed = false then
      (⟨thresholdResult.passed, true, thresholdResult.reason⟩, st1)
    else
      let watchedResult := checkWatchedWallets config e.fromAddr e.toAddr
      if watchedResult.passed = false then
        (⟨watchedResult.passed, true, watchedResult.reason⟩, st1)
      else
        let cooldownResult := checkCooldown config st1 e.fromAddr e.toAddr now
        if cooldownResult.passed = false then
          (⟨cooldownResult.passed, true, cooldownResult.reason⟩, st1)
        else
          (⟨true, true, "matched"⟩, updateCooldown st1 e.fromAddr e.toAddr now)

end TransferFilter

/-- The guard structure of the `transfer` handler in
`ChainWatch.setupEventHandlers` (src/src/index.js): a verdict with reason
`duplicate` returns immediately, then any verdict with `passed` false
returns; only what survives both guards reaches the sinks (recent-events
list, persistent storage, live-feed broadcast, Telegram alert). -/
def dispatchDelivers (filterResult : FilterResult) : Bool :=
  if filterResult.reason == "duplicate" then false
  else if filterResult.passed = false then false
  else true

namespace BlockchainListener

/-- Constant `this.maxReconnectAttempts` (src/src/listener.js constructor). -/
def maxReconnectAttempts : Nat := 10

/-- Constant `this.reconnectDelay` in ms (src/src/listener.js constructor). -/
def reconnectDelay : Nat := 5000

/-- The part of the listener state the reconnection algorithm touches. -/
structure ListenerState where
  reconnectAttempts : Nat
  deriving DecidableEq, Repr

/-- What one invocation of `attemptReconnect` does: either emit the terminal
`failed` connection status (and schedule nothing), or schedule a reconnect
after the given delay in ms. -/
inductive ReconnectAction where
  | emitFailed
  | schedule (delay : Nat)
  deriving DecidableEq, Repr

/-- Method `BlockchainListener.attemptReconnect`: at `maxReconnectAttempts` the
terminal `failed` status is emitted and nothing is scheduled; otherwise the
counter is incremented and a reconnect is scheduled after
`reconnectDelay * reconnectAttempts`. -/
def attemptReconnect (s : ListenerState) : ReconnectAction × ListenerState :=
  if s.reconnectAttempts ≥ maxReconnectAttempts then
    (.emitFailed, s)
  else
    let n := s.reconnectAttempts + 1
    (.schedule (reconnectDelay * n), ⟨n⟩)

/-- The websocket `open` handler (src/src/listener.js, `connect`): a
successful connection resets `reconnectAttempts` to `0`. -/
def handleOpen (_ : ListenerState) : ListenerState := ⟨0⟩

/-- State after `k` consecutive invocations of `attemptReconnect` starting
from a freshly-connected listener (counter `0`).  Invocation `k` is
triggered by the `k`-th consecutive connection loss/failure. -/
def afterFailures : Nat → ListenerState
  | 0 => ⟨0⟩
  | k + 1 => (attemptReconnect (afterFailures k)).2

end BlockchainListener

namespace ConfigWatcher

/-- The raw object obtained from `JSON.parse` of config.json; `none` models
an absent field (`undefined`).  `tokenContract` keeps its string so the
falsy-check `!config[key]` (absent or empty string) can be modelled. -/
structure RawConfig where
  tokenContract : Option String
  thresholdAmount : Option ℚ
  watchedWallets : Option (List WalletEntry)
  cooldownSeconds : Option Int
  telegramChatId : Option String
  confirmationDepth : Option Int
  deriving DecidableEq, Repr

/-- JS truthiness of an optional string field: `undefined` and `""` are
falsy. -/
def truthyStr : Option String → Bool
  | none => false
  | some s => !(s == "")

/-- A validated configuration with the defaults of `validateConfig`
filled in. -/
structure Config where
  tokenContract : String
  thresholdAmount : ℚ
  watchedWallets : List WalletEntry
  cooldownSeconds : Int
  telegramChatId : String
  confirmationDepth : Int
  deriving DecidableEq, Repr

/-- Method `ConfigWatcher.validateConfig`: throw (here `none`) when the required
`tokenContract` field is falsy; otherwise fill the optional fields with the
defaults `?? 0`, `?? []` and the empty string. -/
def validateConfig (config : RawConfig) : Option Config :=
  if !(truthyStr config.tokenContract) then none
  else
    some
      { tokenContract := config.tokenContract.getD ""
        thresholdAmount := config.thresholdAmount.getD 0
        watchedWallets := config.watchedWallets.getD []
        cooldownSeconds := config.cooldownSeconds.getD 0
        telegramChatId := config.telegramChatId.getD ""
        confirmationDepth := config.confirmationDepth.getD 0 }

/-- The three ways a reload can see the config file: absent on disk
(`existsSync` false), present but not valid JSON (`JSON.parse` throws), or
parsed to a raw object. -/
inductive FileState where
  | missing
  | unparseable
  | parsed (raw : RawConfig)
  deriving DecidableEq, Repr

/-- The stored state of a `ConfigWatcher`: `this.config`, `null` before the
first successful load. -/
structure WatcherState where
  config : Option Config
  deriving DecidableEq, Repr

/-- Method `ConfigWatcher.loadConfig` as a function of the file state: a missing
file returns `null` inside the `try` (stored config untouched); a parse or
validation error is caught and returns the previous `this.config`; a valid
parse stores and returns the new config. -/
def loadConfig (file : FileState) (s : WatcherState) :
    Option Config × WatcherState :=
  match file with
  | .missing => (none, s)
  | .unparseable => (s.config, s)
  | .parsed raw =>
      match validateConfig raw with
      | none => (s.config, s)
      | some c => (some c, ⟨some c⟩)

/-- Whether a reload fails (file missing, unparseable, or rejected by
`validateConfig`). -/
def reloadFails (file : FileState) : Bool :=
  match file with
  | .missing => true
  | .unparseable => true
  | .parsed raw => (validateConfig raw).isNone

end ConfigWatcher

namespace TelegramNotifier

/-- Outcome of one `bot.sendMessage` call: success, or a rejection whose
error message is the given string. -/
inductive SendOutcome where
  | ok
  | err (msg : String)
  deriving DecidableEq, Repr

/-- The network-error classification in `sendAlert`: the error message
contains one of the listed fragments. -/
def isNetworkError (errorMsg : String) : Bool :=
  containsSubstr errorMsg "ECONNRESET" ||
  containsSubstr errorMsg "ETIMEDOUT" ||
  containsSubstr errorMsg "ENOTFOUND" ||
  containsSubstr errorMsg "socket hang up" ||
  containsSubstr errorMsg "network"

/-- The inter-attempt delay in ms computed in `sendAlert`:
`2^attempt * 1000` for network-class errors, `2^(attempt-1) * 1000`
otherwise. -/
def retryDelay (attempt : Nat) (networkError : Bool) : Nat :=
  if networkError then 2 ^ attempt * 1000 else 2 ^ (attempt - 1) * 1000

/-- The value `sendAlert` resolves to: `{success}` or
`{success: false, reason}`. -/
structure SendResult where
  success : Bool
  reason : Option String
  deriving DecidableEq, Repr

/-- The retry loop of `sendAlert`, `for (attempt = 1; attempt <= retries;
attempt++)`, driven by an oracle giving the outcome of each attempt.  Returns
the result, the list of delays waited between attempts, and the number of
send attempts actually made.  `fuel` counts the remaining loop iterations
(initially `retries`, since `attempt` starts at 1). -/
def sendAlertGo (outcomes : Nat → SendOutcome) (retries : Nat) :
    Nat → Nat → SendResult × List Nat × Nat
  | 0, _ => (⟨false, some "max_retries_exceeded"⟩, [], 0)
  | fuel + 1, attempt =>
      match outcomes attempt with
      | .ok => (⟨true, none⟩, [], 1)
      | .err msg =>
          if attempt < retries then
            let d := retryDelay attempt (isNetworkError msg)
            let r := sendAlertGo outcomes retries fuel (attempt + 1)
            (r.1, d :: r.2.1, r.2.2 + 1)
          else
            (⟨false, some "max_retries_exceeded"⟩, [], 1)

/-- Method `TelegramNotifier.sendAlert` with its default `retries = 5`: disabled
notifier short-circuits; otherwise run the retry loop from attempt 1. -/
def sendAlert (isEnabled : Bool) (outcomes : Nat → SendOutcome)
    (retries : Nat) : SendResult × List Nat × Nat :=
  if !isEnabled then (⟨false, some "disabled"⟩, [], 0)
  else sendAlertGo outcomes retries retries 1

end TelegramNotifier

/-! ### Concrete sample values used by the witnesses -/

/-- A sample filter configuration: threshold 10, no watch list, 60 s
cooldown. -/
def sampleConfig : FilterConfig := ⟨some 10, [], some 60⟩

/-- The empty filter state of a fresh `TransferFilter`. -/
def emptyState : FilterState := ⟨[], []⟩

/-- A sample event whose amount 50 passes the sample threshold. -/
def sampleEvent : TransferEvent := ⟨"0xhash1", "0xAlice", "0xBob", some 50⟩

/-- A second sample event with the same transaction hash as
`sampleEvent`. -/
def sampleEventDup : TransferEvent := ⟨"0xhash1", "0xCarol", "0xDave", some 70⟩

/-- A sample event whose amount 5 is below the sample threshold 10. -/
def belowEvent : TransferEvent := ⟨"0xhash4", "0xFred", "0xGina", some 5⟩

/-- A later event that involves the sender of `sampleEvent` again. -/
def cooldownEvent : TransferEvent := ⟨"0xhash9", "0xAlice", "0xZed", some 99⟩

/-- A sample validated configuration for the config-watcher claims. -/
def exampleConfig : ConfigWatcher.Config := ⟨"0xToken", 0, [], 0, "", 0⟩

/-- An outcome oracle on which every send attempt fails with a
network-class error. -/
def constErrOutcomes : Nat → TelegramNotifier.SendOutcome :=
  fun _ => .err "ECONNRESET"

/-! ### Helper lemmas -/

theorem mapGet_cons (p : String × Int) (l : List (String × Int)) (k : String) :
    mapGet (p :: l) k = if p.1 == k then some p.2 else mapGet l k := by
  unfold mapGet
  cases h : (p.1 == k) <;> simp [List.find?, h]

theorem mapGet_mapSet_self (m : List (String × Int)) (k : String) (v : Int) :
    mapGet (mapSet m k v) k = some v := by
  induction m with
  | nil => simp [mapGet, mapSet]
  | cons p rest ih =>
      unfold mapSet
      split
      · simp [mapGet_cons]
      · rename_i hne
        rw [mapGet_cons, if_neg hne]
        exact ih

theorem mapGet_mapSet_ne (m : List (String × Int)) (k k' : String) (v : Int)
    (h : ¬k = k') : mapGet (mapSet m k v) k' = mapGet m k' := by
  induction m with
  | nil => simp [mapGet, mapSet, h]
  | cons p rest ih =>
      unfold mapSet
      split
      · rename_i heq
        have hp : p.1 = k := by simpa using heq
        rw [mapGet_cons, mapGet_cons, hp]
        simp [h]
      · rename_i hne
        rw [mapGet_cons, mapGet_cons]
        cases hq : (p.1 == k') <;> simp [hq, ih]

/-- Filtering a map keeps a found entry findable when the entry itself
satisfies the keep-predicate. -/
theorem find?_filter_keep {α : Type} (l : List α) (q pred : α → Bool) (x : α)
    (h : l.find? q = some x) (hx : pred x = true) :
    (l.filter pred).find? q = some x := by
  induction l with
  | nil => simp at h
  | cons a l ih =>
      cases hq : q a with
      | true =>
          rw [List.find?_cons_of_pos _ hq] at h
          have hax : a = x := by simpa using h
          subst hax
          rw [List.filter_cons_of_pos]
          · exact List.find?_cons_of_pos _ hq
          · exact hx
      | false =>
          rw [List.find?_cons_of_neg _ (by simp [hq])] at h
          cases hp : pred a with
          | true =>
              rw [List.filter_cons_of_pos]
              · rw [List.find?_cons_of_neg _ (by simp [hq])]
                exact ih h
              · exact hp
          | false =>
              rw [List.filter_cons_of_neg]
              · exact ih h
              · simp [hp]

/-- Cleanup by timestamp keeps every entry at least as recent as the
cutoff. -/
theorem mapGet_filter_stable (m : List (String × Int)) (cutoff : Int)
    (k : String) (v : Int) (h : mapGet m k = some v) (hv : ¬v < cutoff) :
    mapGet (m.filter (fun p => !(decide (p.2 < cutoff)))) k = some v := by
  unfold mapGet at h ⊢
  cases hf : m.find? (fun p => p.1 == k) with
  | none => rw [hf] at h; simp at h
  | some x =>
      rw [hf] at h
      simp at h
      have hx : (fun p : String × Int => !(decide (p.2 < cutoff))) x = true := by
        simp [h, hv]
      rw [find?_filter_keep m _ _ x hf hx]
      simp [h]

namespace TransferFilter

theorem checkThreshold_reason (config : FilterConfig) (amount : Option ℚ)
    (h : (checkThreshold config amount).passed = false) :
    (checkThreshold config amount).reason = "below_threshold" := by
  unfold checkThreshold at *
  cases amount with
  | none => simp at h
  | some a =>
      by_cases hc : a < config.thresholdAmount.getD 0
      · simp [hc]
      · simp [hc] at h

theorem checkWatchedWallets_reason (config : FilterConfig) (f t : String)
    (h : (checkWatchedWallets config f t).passed = false) :
    (checkWatchedWallets config f t).reason = "not_watched" := by
  unfold checkWatchedWallets at *
  dsimp only at h ⊢
  split at h
  · simp at h
  · rename_i hc0
    split at h
    · rename_i hc1
      rw [if_neg hc0, if_pos hc1]
    · simp at h

theorem checkCooldown_reason (config : FilterConfig) (st : FilterState)
    (f t : String) (now : Int)
    (h : (checkCooldown config st f t now).passed = false) :
    (checkCooldown config st f t now).reason = "cooldown" := by
  unfold checkCooldown at *
  dsimp only at h ⊢
  split at h
  · simp at h
  · rename_i hc0
    split at h
    · rename_i hc1
      rw [if_neg hc0, if_pos hc1]
    · simp at h

/-- The duplicate branch of `filter` in equational form (shared by the
dedup claims). -/
theorem filter_duplicate_eq (config : FilterConfig) (st : FilterState)
    (e : TransferEvent) (now : Int)
    (h : isDuplicate st e.transactionHash = true) :
    filter config st e now = (⟨false, false, "duplicate"⟩, st) := by
  unfold filter
  simp [h]

/-- Membership in the normalized watch list, unfolded to an existential
over the configured entries. -/
theorem contains_normalized (l : List WalletEntry) (s : String) :
    ((l.filter WalletEntry.isEnabled).map
        (fun w => strToLower w.address)).contains s = true ↔
      ∃ w ∈ l, w.isEnabled = true ∧ strToLower w.address = s := by
  constructor
  · intro h
    simp at h
    obtain ⟨w, ⟨hw, hp⟩, he⟩ := h
    exact ⟨w, hw, hp, he⟩
  · intro h
    obtain ⟨w, hw, hp, he⟩ := h
    simp
    exact ⟨w, ⟨hw, hp⟩, he⟩

theorem markProcessed_contains (st : FilterState) (txHash : String) :
    (markProcessed st txHash).processedTxHashes.contains txHash = true := by
  unfold markProcessed
  dsimp only
  split <;> split <;> simp_all

/-- Every possible shape of a verdict of `filter`. -/
theorem filter_result_cases (config : FilterConfig) (st : FilterState)
    (e : TransferEvent) (now : Int) :
    (filter config st e now).1 = ⟨false, false, "duplicate"⟩ ∨
    ((filter config st e now).1.passed = false ∧
      (filter config st e now).1.showInUI = true ∧
      (filter config st e now).1.reason ∈
        (["below_threshold", "not_watched", "cooldown"] : List String)) ∨
    (filter config st e now).1 = ⟨true, true, "matched"⟩ := by
  unfold filter
  split
  · exact Or.inl rfl
  · dsimp only
    split
    · rename_i h
      refine Or.inr (Or.inl ⟨h, rfl, ?_⟩)
      simp [checkThreshold_reason _ _ h]
    · split
      · rename_i h
        refine Or.inr (Or.inl ⟨h, rfl, ?_⟩)
        simp [checkWatchedWallets_reason _ _ _ h]
      · split
        · rename_i h
          refine Or.inr (Or.inl ⟨h, rfl, ?_⟩)
          simp [checkCooldown_reason _ _ _ _ _ h]
        · exact Or.inr (Or.inr rfl)

/-- A non-duplicate event leaves the filter with its hash in the
seen-set. -/
theorem filter_state_contains (config : FilterConfig) (st : FilterState)
    (e : TransferEvent) (now : Int)
    (h : isDuplicate st e.transactionHash = false) :
    isDuplicate (filter config st e now).2 e.transactionHash = true := by
  unfold filter
  simp only [h]
  split
  · simp_all
  · try dsimp only
    split
    · exact markProcessed_contains st e.transactionHash
    · split
      · exact markProcessed_contains st e.transactionHash
      · split
        · exact markProcessed_contains st e.transactionHash
        · exact markProcessed_contains st e.transactionHash

/-- After `updateCooldown`, both involved addresses map to the current
timestamp (the one-hour cleanup never removes an entry stamped now). -/
theorem updateCooldown_mapGet (st : FilterState) (f t : String) (now : Int) :
    mapGet (updateCooldown st f t now).lastAlertTime (strToLower f) = some now ∧
    mapGet (updateCooldown st f t now).lastAlertTime (strToLower t) = some now := by
  unfold updateCooldown
  dsimp only
  constructor
  · apply mapGet_filter_stable _ _ _ _ ?_ (by omega)
    by_cases hk : strToLower t = strToLower f
    · rw [hk]
      exact mapGet_mapSet_self _ _ _
    · rw [mapGet_mapSet_ne _ _ _ _ hk]
      exact mapGet_mapSet_self _ _ _
  · exact mapGet_filter_stable _ _ _ _ (mapGet_mapSet_self _ _ _) (by omega)

/-- A fully passing `filter` run ends in the state obtained by marking the
hash processed and stamping both addresses with the current time. -/
theorem filter_passed_state (config : FilterConfig) (st : FilterState)
    (e : TransferEvent) (now : Int)
    (h : (filter config st e now).1.passed = true) :
    (filter config st e now).2 =
      updateCooldown (markProcessed st e.transactionHash) e.fromAddr e.toAddr
        now := by
  unfold filter at h ⊢
  by_cases h0 : isDuplicate st e.transactionHash = true
  · rw [if_pos h0] at h
    exact absurd h (by simp)
  · rw [if_neg h0] at h ⊢
    dsimp only at h ⊢
    by_cases h1 : (checkThreshold config e.amount).passed = false
    · rw [if_pos h1] at h
      dsimp only at h
      rw [h1] at h
      exact Bool.noConfusion h
    · rw [if_neg h1] at h ⊢
      by_cases h2 : (checkWatchedWallets config e.fromAddr e.toAddr).passed = false
      · rw [if_pos h2] at h
        dsimp only at h
        rw [h2] at h
        exact Bool.noConfusion h
      · rw [if_neg h2] at h ⊢
        by_cases h3 : (checkCooldown config (markProcessed st e.transactionHash)
            e.fromAddr e.toAddr now).passed = false
        · rw [if_pos h3] at h
          dsimp only at h
          rw [h3] at h
          exact Bool.noConfusion h
        · rw [if_neg h3]

/-- The cooldown check fails with reason `cooldown` as soon as one of the
two (lower-cased) event addresses is in cooldown. -/
theorem checkCooldown_blocked (config : FilterConfig) (st : FilterState)
    (f t : String) (now' : Int) (A : String)
    (hcd : ¬config.cooldownSeconds.getD 0 = 0)
    (he : strToLower f = A ∨ strToLower t = A)
    (hin : addrInCooldown st (config.cooldownSeconds.getD 0 * 1000) now' A =
      true) :
    checkCooldown config st f t now' = ⟨false, "cooldown"⟩ := by
  unfold checkCooldown
  dsimp only
  rw [if_neg hcd]
  have hany : ([strToLower f, strToLower t]).any
      (addrInCooldown st (config.cooldownSeconds.getD 0 * 1000) now') = true := by
    simp only [List.any_cons, List.any_nil, Bool.or_false, Bool.or_eq_true]
    rcases he with h | h
    · exact Or.inl (by rw [h]; exact hin)
    · exact Or.inr (by rw [h]; exact hin)
  rw [if_pos hany]

/-- An address whose last alert is at least the cooldown window in the past
does not trigger the cooldown. -/
theorem addr_not_in_cooldown (st : FilterState) (cdms now' : Int) (A : String)
    (T : Int) (hget : mapGet st.lastAlertTime A = some T)
    (hge : cdms ≤ now' - T) :
    addrInCooldown st cdms now' A = false := by
  unfold addrInCooldown
  rw [hget]
  simp [not_lt.mpr hge]

/-- The verdict of `filter` on a non-duplicate event. -/
theorem filter_reason_ne_duplicate (config : FilterConfig) (st : FilterState)
    (e : TransferEvent) (now : Int)
    (h : isDuplicate st e.transactionHash = false) :
    (filter config st e now).1.reason ≠ "duplicate" := by
  unfold filter
  simp only [h]
  split
  · simp_all
  · split
    · rename_i hq
      simp [checkThreshold_reason _ _ hq]
    · split
      · rename_i hq
        simp [checkWatchedWallets_reason _ _ _ hq]
      · split
        · rename_i hq
          simp [checkCooldown_reason _ _ _ _ _ hq]
        · simp

end TransferFilter

/-! ### Claim theorems -/

/-- C2.  Duplicate short-circuit with no side effects: when the hash is
already in the seen-set, `TransferFilter.filter` returns the verdict
`passed = false`, `reason = duplicate`, `showInUI = false` and the state
(seen-set and cooldown map) is returned unchanged; no threshold, watch-list
or cooldown check influences the outcome. -/
theorem duplicate_short_circuit (config : FilterConfig) (st : FilterState)
    (e : TransferEvent) (now : Int)
    (h : TransferFilter.isDuplicate st e.transactionHash = true) :
    TransferFilter.filter config st e now = (⟨false, false, "duplicate"⟩, st) :=
  TransferFilter.filter_duplicate_eq config st e now h

/-- Witness for C2 at a concrete duplicate event. -/
theorem duplicate_short_circuit_witness :
    TransferFilter.isDuplicate ⟨["0xhash1"], []⟩ "0xhash1" = true ∧
    TransferFilter.filter sampleConfig ⟨["0xhash1"], []⟩ sampleEvent 1000 =
      (⟨false, false, "duplicate"⟩, ⟨["0xhash1"], []⟩) :=
  ⟨by decide, duplicate_short_circuit sampleConfig ⟨["0xhash1"], []⟩ sampleEvent
    1000 (by decide)⟩

/-- C5.  Threshold monotonicity: for a numeric amount `a`, the threshold
check passes exactly when `a` is at least the configured threshold; hence
raising the threshold can only turn a pass into a fail, never the
reverse. -/
theorem threshold_monotonicity (w : List WalletEntry) (cd : Option Int)
    (t1 t2 a : ℚ) (hle : t1 ≤ t2) :
    ((TransferFilter.checkThreshold ⟨some t1, w, cd⟩ (some a)).passed = true ↔
      t1 ≤ a) ∧
    ((TransferFilter.checkThreshold ⟨some t2, w, cd⟩ (some a)).passed = true →
      (TransferFilter.checkThreshold ⟨some t1, w, cd⟩ (some a)).passed = true) := by
  refine ⟨?_, ?_⟩
  · by_cases hc : a < t1
    · simp [TransferFilter.checkThreshold, hc, not_le.mpr hc]
    · simp [TransferFilter.checkThreshold, hc, not_lt.mp hc]
  · intro h
    by_cases hc2 : a < t2
    · simp [TransferFilter.checkThreshold, hc2] at h
    · have hc1 : ¬a < t1 := fun hl => hc2 (lt_of_lt_of_le hl hle)
      simp [TransferFilter.checkThreshold, hc1]

/-- Witness for C5 at concrete thresholds 3 ≤ 7 and amount 50. -/
theorem threshold_monotonicity_witness :
    ((3 : ℚ) ≤ 7) ∧
    (((TransferFilter.checkThreshold ⟨some 3, [], none⟩ (some 50)).passed = true ↔
        (3 : ℚ) ≤ 50) ∧
      ((TransferFilter.checkThreshold ⟨some 7, [], none⟩ (some 50)).passed = true →
        (TransferFilter.checkThreshold ⟨some 3, [], none⟩ (some 50)).passed = true)) :=
  ⟨by norm_num, threshold_monotonicity [] none 3 7 50 (by norm_num)⟩

/-- C10.  The threshold check is total and fails open on non-numeric data:
a `NaN` amount passes for every configured threshold, and a missing or
non-numeric `thresholdAmount` is treated as `0`, so every parseable
non-negative amount passes. -/
theorem threshold_fails_open (w : List WalletEntry) (cd : Option Int)
    (tOpt : Option ℚ) (a : ℚ) (ha : 0 ≤ a) :
    ((TransferFilter.checkThreshold ⟨tOpt, w, cd⟩ none).passed = true) ∧
    ((TransferFilter.checkThreshold ⟨none, w, cd⟩ (some a)).passed = true) := by
  refine ⟨rfl, ?_⟩
  simp [TransferFilter.checkThreshold, not_lt.mpr ha]

/-- Witness for C10 at amount 5 and threshold 10 resp. absent. -/
theorem threshold_fails_open_witness :
    ((0 : ℚ) ≤ 5) ∧
    (((TransferFilter.checkThreshold ⟨some 10, [], none⟩ none).passed = true) ∧
      ((TransferFilter.checkThreshold ⟨none, [], none⟩ (some 5)).passed = true)) :=
  ⟨by norm_num, threshold_fails_open [] none (some 10) 5 (by norm_num)⟩

/-- C1.  Dedup idempotence: two events with the same transaction hash fed
in sequence through `TransferFilter.filter`, the hash not yet in the
seen-set, give a non-duplicate verdict for the first and reason
`duplicate` for the second — whatever the first verdict was (`matched`,
`below_threshold`, `not_watched` or `cooldown`), because the hash is added
to the seen-set right after the duplicate check and before the remaining
checks. -/
theorem dedup_idempotence (config : FilterConfig) (st : FilterState)
    (e1 e2 : TransferEvent) (now1 now2 : Int)
    (hhash : e1.transactionHash = e2.transactionHash)
    (hnew : TransferFilter.isDuplicate st e1.transactionHash = false) :
    (TransferFilter.filter config st e1 now1).1.reason ≠ "duplicate" ∧
    (TransferFilter.filter config (TransferFilter.filter config st e1 now1).2
        e2 now2).1.reason = "duplicate" := by
  refine ⟨TransferFilter.filter_reason_ne_duplicate config st e1 now1 hnew, ?_⟩
  have hdup : TransferFilter.isDuplicate
      (TransferFilter.filter config st e1 now1).2 e2.transactionHash = true := by
    rw [← hhash]
    exact TransferFilter.filter_state_contains config st e1 now1 hnew
  rw [TransferFilter.filter_duplicate_eq config _ e2 now2 hdup]

/-- Witness for C1: a fresh filter sees `sampleEvent` (verdict `matched`)
and then `sampleEventDup`, which shares its hash. -/
theorem dedup_idempotence_witness :
    sampleEvent.transactionHash = sampleEventDup.transactionHash ∧
    TransferFilter.isDuplicate emptyState sampleEvent.transactionHash = false ∧
    ((TransferFilter.filter sampleConfig emptyState sampleEvent 1000).1.reason ≠
        "duplicate" ∧
      (TransferFilter.filter sampleConfig
          (TransferFilter.filter sampleConfig emptyState sampleEvent 1000).2
          sampleEventDup 2000).1.reason = "duplicate") :=
  ⟨rfl, by decide,
    dedup_idempotence sampleConfig emptyState sampleEvent sampleEventDup
      1000 2000 rfl (by decide)⟩

/-- C3.  Cooldown boundary: a full pass at time `now` stamps both involved
addresses with `now`; afterwards, for positive `cooldownSeconds`, any event
at `now'` touching such an address `A` (case-insensitively) fails the
cooldown check with reason `cooldown` while `now' - now` is below the
cooldown window (in ms), and `A` no longer triggers the cooldown once
`now' - now` has reached the window.  (Times are in milliseconds, so the
window is `cooldownSeconds * 1000`; `0 < now` reflects that a stored
timestamp `0` is falsy in JS.) -/
theorem cooldown_boundary (config : FilterConfig) (st : FilterState)
    (e e' : TransferEvent) (now now' : Int) (A : String)
    (hcd : 0 < config.cooldownSeconds.getD 0)
    (hpass : (TransferFilter.filter config st e now).1.passed = true)
    (hA : strToLower e.fromAddr = A ∨ strToLower e.toAddr = A)
    (hnow : 0 < now)
    (he' : strToLower e'.fromAddr = A ∨ strToLower e'.toAddr = A) :
    mapGet (TransferFilter.filter config st e now).2.lastAlertTime
      (strToLower e.fromAddr) = some now ∧
    mapGet (TransferFilter.filter config st e now).2.lastAlertTime
      (strToLower e.toAddr) = some now ∧
    (now' - now < config.cooldownSeconds.getD 0 * 1000 →
      TransferFilter.checkCooldown config
        (TransferFilter.filter config st e now).2 e'.fromAddr e'.toAddr now' =
        ⟨false, "cooldown"⟩) ∧
    (config.cooldownSeconds.getD 0 * 1000 ≤ now' - now →
      TransferFilter.addrInCooldown (TransferFilter.filter config st e now).2
        (config.cooldownSeconds.getD 0 * 1000) now' A = false) := by
  have hstate := TransferFilter.filter_passed_state config st e now hpass
  rw [hstate]
  have hmg := TransferFilter.updateCooldown_mapGet
    (TransferFilter.markProcessed st e.transactionHash) e.fromAddr e.toAddr now
  have hgetA : mapGet (TransferFilter.updateCooldown
      (TransferFilter.markProcessed st e.transactionHash) e.fromAddr e.toAddr
      now).lastAlertTime A = some now := by
    rcases hA with h | h
    · rw [← h]
      exact hmg.1
    · rw [← h]
      exact hmg.2
  refine ⟨hmg.1, hmg.2, ?_, ?_⟩
  · intro hlt
    apply TransferFilter.checkCooldown_blocked _ _ _ _ _ _ (by omega) he'
    unfold TransferFilter.addrInCooldown
    rw [hgetA]
    have h0 : (now != 0) = true := by
      simp only [bne_iff_ne, ne_eq]
      omega
    simp [h0, hlt]
  · intro hge
    exact TransferFilter.addr_not_in_cooldown _ _ _ _ now hgetA hge

/-- Witness for C3: `sampleEvent` passes at time 1000; `cooldownEvent`
touches the same sender at time 2000, inside the 60 s window. -/
theorem cooldown_boundary_witness :
    (0 < sampleConfig.cooldownSeconds.getD 0) ∧
    ((TransferFilter.filter sampleConfig emptyState sampleEvent 1000).1.passed =
      true) ∧
    (strToLower sampleEvent.fromAddr = strToLower sampleEvent.fromAddr ∨
      strToLower sampleEvent.toAddr = strToLower sampleEvent.fromAddr) ∧
    ((0 : Int) < 1000) ∧
    (strToLower cooldownEvent.fromAddr = strToLower sampleEvent.fromAddr ∨
      strToLower cooldownEvent.toAddr = strToLower sampleEvent.fromAddr) ∧
    (mapGet (TransferFilter.filter sampleConfig emptyState sampleEvent
        1000).2.lastAlertTime (strToLower sampleEvent.fromAddr) = some 1000 ∧
      mapGet (TransferFilter.filter sampleConfig emptyState sampleEvent
        1000).2.lastAlertTime (strToLower sampleEvent.toAddr) = some 1000 ∧
      ((2000 : Int) - 1000 < sampleConfig.cooldownSeconds.getD 0 * 1000 →
        TransferFilter.checkCooldown sampleConfig
          (TransferFilter.filter sampleConfig emptyState sampleEvent 1000).2
          cooldownEvent.fromAddr cooldownEvent.toAddr 2000 =
          ⟨false, "cooldown"⟩) ∧
      (sampleConfig.cooldownSeconds.getD 0 * 1000 ≤ (2000 : Int) - 1000 →
        TransferFilter.addrInCooldown
          (TransferFilter.filter sampleConfig emptyState sampleEvent 1000).2
          (sampleConfig.cooldownSeconds.getD 0 * 1000) 2000
          (strToLower sampleEvent.fromAddr) = false)) :=
  ⟨by decide, by decide, Or.inl rfl, by decide, Or.inl rfl,
    cooldown_boundary sampleConfig emptyState sampleEvent cooldownEvent 1000
      2000 (strToLower sampleEvent.fromAddr) (by decide) (by decide)
      (Or.inl rfl) (by decide) (Or.inl rfl)⟩

/-- C4.  Watch-list semantics: the check passes iff the configured list is
empty or some enabled entry (a plain string, or an object whose `enabled`
field is not `false`) matches the `from` or `to` address case-insensitively;
any failure carries the reason `not_watched`; in particular an empty list
passes every event. -/
theorem watchlist_semantics (config : FilterConfig) (fromAddr toAddr : String) :
    ((TransferFilter.checkWatchedWallets config fromAddr toAddr).passed = true ↔
      (config.watchedWallets = [] ∨
        ∃ w ∈ config.watchedWallets, w.isEnabled = true ∧
          (strToLower w.address = strToLower fromAddr ∨
            strToLower w.address = strToLower toAddr))) ∧
    ((TransferFilter.checkWatchedWallets config fromAddr toAddr).passed = false →
      (TransferFilter.checkWatchedWallets config fromAddr toAddr).reason =
        "not_watched") ∧
    (config.watchedWallets = [] →
      (TransferFilter.checkWatchedWallets config fromAddr toAddr).passed = true) := by
  refine ⟨?_, fun h => TransferFilter.checkWatchedWallets_reason config
    fromAddr toAddr h, ?_⟩
  · unfold TransferFilter.checkWatchedWallets
    dsimp only
    split
    · rename_i h0
      simp [List.length_eq_zero.mp h0]
    · rename_i h0
      have hne : ¬config.watchedWallets = [] := fun he => h0 (by simp [he])
      cases hAv : ((config.watchedWallets.filter WalletEntry.isEnabled).map
          (fun w => strToLower w.address)).contains (strToLower fromAddr) with
      | true =>
          simp only [Bool.not_true, Bool.false_and]
          rw [if_neg (by simp)]
          obtain ⟨w, hw, hen, he⟩ :=
            (TransferFilter.contains_normalized _ _).mp hAv
          exact iff_of_true rfl (Or.inr ⟨w, hw, hen, Or.inl he⟩)
      | false =>
          cases hBv : ((config.watchedWallets.filter WalletEntry.isEnabled).map
              (fun w => strToLower w.address)).contains (strToLower toAddr) with
          | true =>
              simp only [Bool.not_false, Bool.not_true, Bool.true_and]
              rw [if_neg (by simp)]
              obtain ⟨w, hw, hen, he⟩ :=
                (TransferFilter.contains_normalized _ _).mp hBv
              exact iff_of_true rfl (Or.inr ⟨w, hw, hen, Or.inr he⟩)
          | false =>
              simp only [Bool.not_false, Bool.true_and]
              rw [if_pos trivial]
              refine iff_of_false (by simp) ?_
              rintro (he | ⟨w, hw, hen, ho | ho⟩)
              · exact hne he
              · have hcc := (TransferFilter.contains_normalized
                  config.watchedWallets (strToLower fromAddr)).mpr ⟨w, hw, hen, ho⟩
                rw [hAv] at hcc
                exact Bool.noConfusion hcc
              · have hcc := (TransferFilter.contains_normalized
                  config.watchedWallets (strToLower toAddr)).mpr ⟨w, hw, hen, ho⟩
                rw [hBv] at hcc
                exact Bool.noConfusion hcc
  · intro h
    unfold TransferFilter.checkWatchedWallets
    simp [h]

/-- Witness for C4: a watch list with one disabled and one enabled entry
fails an unmatched pair of addresses with `not_watched`, and the empty
list passes. -/
theorem watchlist_semantics_witness :
    ((TransferFilter.checkWatchedWallets
        ⟨some 0, [.obj "0xAA" (some false), .str "0xBB"], none⟩
        "0xaa" "0xzz").passed = false) ∧
    ((TransferFilter.checkWatchedWallets
        ⟨some 0, [.obj "0xAA" (some false), .str "0xBB"], none⟩
        "0xaa" "0xzz").reason = "not_watched") ∧
    ((TransferFilter.checkWatchedWallets ⟨some 0, [], none⟩
        "0xaa" "0xzz").passed = true) :=
  ⟨by decide,
    (watchlist_semantics ⟨some 0, [.obj "0xAA" (some false), .str "0xBB"], none⟩
      "0xaa" "0xzz").2.1 (by decide),
    (watchlist_semantics ⟨some 0, [], none⟩ "0xaa" "0xzz").2.2 rfl⟩

/-- C9.  The dispatch handler delivers an event to the sinks only when the
verdict has `passed = true`; verdicts with reason `below_threshold`,
`not_watched` or `cooldown` are dropped before any sink even though they
carry `showInUI = true`. -/
theorem dispatch_only_passed (config : FilterConfig) (st : FilterState)
    (e : TransferEvent) (now : Int) :
    (dispatchDelivers (TransferFilter.filter config st e now).1 = true ↔
      (TransferFilter.filter config st e now).1.passed = true) ∧
    ((TransferFilter.filter config st e now).1.reason ∈
        (["below_threshold", "not_watched", "cooldown"] : List String) →
      dispatchDelivers (TransferFilter.filter config st e now).1 = false ∧
      (TransferFilter.filter config st e now).1.showInUI = true) := by
  rcases TransferFilter.filter_result_cases config st e now with h | ⟨hp, hu, hr⟩ | h
  · rw [h]
    exact ⟨by decide, fun hmem => absurd hmem (by decide)⟩
  · have hdel : dispatchDelivers (TransferFilter.filter config st e now).1 = false := by
      simp [dispatchDelivers, hp]
    exact ⟨by rw [hdel, hp], fun _ => ⟨hdel, hu⟩⟩
  · rw [h]
    exact ⟨by decide, fun hmem => absurd hmem (by decide)⟩

/-- States reached by consecutive failures, while under the attempt cap,
simply count the failures. -/
theorem afterFailures_eq (k : Nat)
    (hk : k ≤ BlockchainListener.maxReconnectAttempts) :
    BlockchainListener.afterFailures k = ⟨k⟩ := by
  induction k with
  | zero => rfl
  | succ n ih =>
      have hn := ih (Nat.le_of_succ_le hk)
      have hlt : ¬n ≥ BlockchainListener.maxReconnectAttempts := by
        simp only [BlockchainListener.maxReconnectAttempts] at hk ⊢
        omega
      unfold BlockchainListener.afterFailures
      rw [hn]
      unfold BlockchainListener.attemptReconnect
      rw [if_neg hlt]

/-- C6.  Reconnection backoff and termination: the `k`-th consecutive
failure-handler invocation (counter starting at 0, reset by every
successful connection) schedules the next reconnect after
`reconnectDelay * k`; once the counter has reached
`maxReconnectAttempts = 10` — i.e. after the 10 scheduled reconnect
attempts have all failed — the handler emits the terminal `failed` status
and schedules nothing, and every later invocation does the same. -/
theorem reconnect_backoff (k : Nat) (s : BlockchainListener.ListenerState)
    (h1 : 1 ≤ k) (h2 : k ≤ BlockchainListener.maxReconnectAttempts)
    (hs : BlockchainListener.maxReconnectAttempts ≤ s.reconnectAttempts) :
    (BlockchainListener.attemptReconnect
        (BlockchainListener.afterFailures (k - 1))).1 =
      .schedule (BlockchainListener.reconnectDelay * k) ∧
    BlockchainListener.attemptReconnect
        (BlockchainListener.afterFailures
          BlockchainListener.maxReconnectAttempts) =
      (.emitFailed,
        BlockchainListener.afterFailures BlockchainListener.maxReconnectAttempts) ∧
    BlockchainListener.attemptReconnect s = (.emitFailed, s) ∧
    (BlockchainListener.handleOpen s).reconnectAttempts = 0 := by
  refine ⟨?_, ?_, ?_, rfl⟩
  · rw [afterFailures_eq (k - 1) (by omega)]
    unfold BlockchainListener.attemptReconnect
    rw [if_neg (by simp only [BlockchainListener.maxReconnectAttempts] at h2 ⊢; omega)]
    have hk : k - 1 + 1 = k := by omega
    simp [hk]
  · rw [afterFailures_eq BlockchainListener.maxReconnectAttempts le_rfl]
    unfold BlockchainListener.attemptReconnect
    rw [if_pos le_rfl]
  · unfold BlockchainListener.attemptReconnect
    rw [if_pos hs]

/-- Witness for C6 at the third failure and a saturated counter. -/
theorem reconnect_backoff_witness :
    (1 ≤ 3) ∧ (3 ≤ BlockchainListener.maxReconnectAttempts) ∧
    (BlockchainListener.maxReconnectAttempts ≤
      (⟨10⟩ : BlockchainListener.ListenerState).reconnectAttempts) ∧
    ((BlockchainListener.attemptReconnect
        (BlockchainListener.afterFailures (3 - 1))).1 =
      .schedule (BlockchainListener.reconnectDelay * 3) ∧
    BlockchainListener.attemptReconnect
        (BlockchainListener.afterFailures
          BlockchainListener.maxReconnectAttempts) =
      (.emitFailed,
        BlockchainListener.afterFailures BlockchainListener.maxReconnectAttempts) ∧
    BlockchainListener.attemptReconnect ⟨10⟩ = (.emitFailed, ⟨10⟩) ∧
    (BlockchainListener.handleOpen ⟨10⟩).reconnectAttempts = 0) :=
  ⟨by decide, by decide, by decide,
    reconnect_backoff 3 ⟨10⟩ (by decide) (by decide) (by decide)⟩

/-- C7 counterexample: on a reload with the config file missing,
`loadConfig` returns `null` — not the previous valid configuration, as the
claim states — although the stored configuration is left unchanged. -/
theorem loadConfig_missing_returns_null :
    ConfigWatcher.reloadFails .missing = true ∧
    (ConfigWatcher.loadConfig .missing ⟨some exampleConfig⟩).2 =
      ⟨some exampleConfig⟩ ∧
    (ConfigWatcher.loadConfig .missing ⟨some exampleConfig⟩).1 = none ∧
    (ConfigWatcher.loadConfig .missing ⟨some exampleConfig⟩).1 ≠
      (⟨some exampleConfig⟩ : ConfigWatcher.WatcherState).config := by
  refine ⟨rfl, rfl, rfl, ?_⟩
  intro h
  exact Option.noConfusion h

/-- C7 (amended).  Config reload atomicity on error: any failing reload
(missing file, unparseable JSON, or missing `tokenContract`) leaves the
stored configuration unchanged — the invalid data is never applied in
whole or in part; parse and validation errors return the previous stored
configuration, while a missing file returns `null`. -/
theorem loadConfig_error_atomicity (file : ConfigWatcher.FileState)
    (s : ConfigWatcher.WatcherState)
    (h : ConfigWatcher.reloadFails file = true) :
    (ConfigWatcher.loadConfig file s).2 = s ∧
    (file = .missing → (ConfigWatcher.loadConfig file s).1 = none) ∧
    (file ≠ .missing → (ConfigWatcher.loadConfig file s).1 = s.config) := by
  cases file with
  | missing => exact ⟨rfl, fun _ => rfl, fun hne => absurd rfl hne⟩
  | unparseable => exact ⟨rfl, fun hm => ConfigWatcher.FileState.noConfusion hm,
      fun _ => rfl⟩
  | parsed raw =>
      unfold ConfigWatcher.reloadFails at h
      unfold ConfigWatcher.loadConfig
      dsimp only at h ⊢
      cases hv : ConfigWatcher.validateConfig raw with
      | none =>
          exact ⟨rfl, fun hm => ConfigWatcher.FileState.noConfusion hm,
            fun _ => rfl⟩
      | some c =>
          rw [hv] at h
          simp at h

/-- Witness for C7 at an unparseable reload over a stored valid config. -/
theorem loadConfig_error_atomicity_witness :
    ConfigWatcher.reloadFails .unparseable = true ∧
    ((ConfigWatcher.loadConfig .unparseable ⟨some exampleConfig⟩).2 =
        ⟨some exampleConfig⟩ ∧
      ((.unparseable : ConfigWatcher.FileState) = .missing →
        (ConfigWatcher.loadConfig .unparseable ⟨some exampleConfig⟩).1 = none) ∧
      ((.unparseable : ConfigWatcher.FileState) ≠ .missing →
        (ConfigWatcher.loadConfig .unparseable ⟨some exampleConfig⟩).1 =
          (⟨some exampleConfig⟩ : ConfigWatcher.WatcherState).config)) :=
  ⟨rfl, loadConfig_error_atomicity .unparseable ⟨some exampleConfig⟩ rfl⟩

/-- The retry loop never makes more attempts than it has fuel (loop
iterations) left. -/
theorem sendAlertGo_attempts_le (o : Nat → TelegramNotifier.SendOutcome)
    (r : Nat) : ∀ fuel a, (TelegramNotifier.sendAlertGo o r fuel a).2.2 ≤ fuel := by
  intro fuel
  induction fuel with
  | zero => intro a; exact Nat.le_refl 0
  | succ n ih =>
      intro a
      unfold TelegramNotifier.sendAlertGo
      cases o a with
      | ok => exact Nat.succ_le_succ (Nat.zero_le n)
      | err msg =>
          dsimp only
          split
          · exact Nat.succ_le_succ (ih (a + 1))
          · exact Nat.succ_le_succ (Nat.zero_le n)

/-- When no attempt ever succeeds, the loop resolves to
`max_retries_exceeded`. -/
theorem sendAlertGo_allfail (o : Nat → TelegramNotifier.SendOutcome) (r : Nat)
    (hfail : ∀ n, o n ≠ TelegramNotifier.SendOutcome.ok) :
    ∀ fuel a, (TelegramNotifier.sendAlertGo o r fuel a).1 =
      ⟨false, some "max_retries_exceeded"⟩ := by
  intro fuel
  induction fuel with
  | zero => intro a; rfl
  | succ n ih =>
      intro a
      unfold TelegramNotifier.sendAlertGo
      cases ho : o a with
      | ok => exact absurd ho (hfail a)
      | err msg =>
          dsimp only
          split
          · exact ih (a + 1)
          · rfl

/-- Outcomes that constantly fail are never `ok`. -/
theorem constErrOutcomes_ne_ok :
    ∀ n, constErrOutcomes n ≠ TelegramNotifier.SendOutcome.ok :=
  fun n h => by simp [constErrOutcomes] at h

/-- C8.  Notifier retry policy: `sendAlert` makes at most 5 attempts; the
inter-attempt delay strictly increases with the attempt number within each
error class, and for network-class errors it is exactly twice the delay of
other errors at the same attempt; exhausting every attempt resolves (never
throws) to `success = false` with reason `max_retries_exceeded`. -/
theorem notifier_retry_policy (outcomes : Nat → TelegramNotifier.SendOutcome)
    (a1 a2 : Nat) (c : Bool) (h1 : 1 ≤ a1) (hlt : a1 < a2)
    (hfail : ∀ n, outcomes n ≠ TelegramNotifier.SendOutcome.ok) :
    (TelegramNotifier.sendAlert true outcomes 5).2.2 ≤ 5 ∧
    TelegramNotifier.retryDelay a1 c < TelegramNotifier.retryDelay a2 c ∧
    TelegramNotifier.retryDelay a1 true = 2 * TelegramNotifier.retryDelay a1 false ∧
    (TelegramNotifier.sendAlert true outcomes 5).1 =
      ⟨false, some "max_retries_exceeded"⟩ := by
  refine ⟨?_, ?_, ?_, ?_⟩
  · unfold TelegramNotifier.sendAlert
    rw [if_neg (by simp)]
    exact sendAlertGo_attempts_le outcomes 5 5 1
  · cases c with
    | true =>
        show 2 ^ a1 * 1000 < 2 ^ a2 * 1000
        exact (Nat.mul_lt_mul_right (by norm_num)).mpr
          (Nat.pow_lt_pow_right (by norm_num) hlt)
    | false =>
        show 2 ^ (a1 - 1) * 1000 < 2 ^ (a2 - 1) * 1000
        exact (Nat.mul_lt_mul_right (by norm_num)).mpr
          (Nat.pow_lt_pow_right (by norm_num) (by omega))
  · show 2 ^ a1 * 1000 = 2 * (2 ^ (a1 - 1) * 1000)
    have ha : a1 - 1 + 1 = a1 := by omega
    have h2 : 2 ^ a1 = 2 ^ (a1 - 1) * 2 := by rw [← pow_succ, ha]
    rw [h2]
    ring
  · unfold TelegramNotifier.sendAlert
    rw [if_neg (by simp)]
    exact sendAlertGo_allfail outcomes 5 hfail 5 1

/-- Witness for C8: constant network failures at attempts 1 and 2. -/
theorem notifier_retry_policy_witness :
    (1 ≤ 1) ∧ (1 < 2) ∧
    (∀ n, constErrOutcomes n ≠ TelegramNotifier.SendOutcome.ok) ∧
    ((TelegramNotifier.sendAlert true constErrOutcomes 5).2.2 ≤ 5 ∧
      TelegramNotifier.retryDelay 1 false < TelegramNotifier.retryDelay 2 false ∧
      TelegramNotifier.retryDelay 1 true = 2 * TelegramNotifier.retryDelay 1 false ∧
      (TelegramNotifier.sendAlert true constErrOutcomes 5).1 =
        ⟨false, some "max_retries_exceeded"⟩) :=
  ⟨by decide, by decide, constErrOutcomes_ne_ok,
    notifier_retry_policy constErrOutcomes 1 2 false (by decide) (by decide)
      constErrOutcomes_ne_ok⟩

/-- Witness for C9: a below-threshold event is not delivered although its
verdict has `showInUI = true`. -/
theorem dispatch_only_passed_witness :
    ((TransferFilter.filter sampleConfig emptyState belowEvent 0).1.reason ∈
      (["below_threshold", "not_watched", "cooldown"] : List String)) ∧
    (dispatchDelivers (TransferFilter.filter sampleConfig emptyState belowEvent 0).1 =
        false ∧
      (TransferFilter.filter sampleConfig emptyState belowEvent 0).1.showInUI =
        true) :=
  ⟨by decide,
    (dispatch_only_passed sampleConfig emptyState belowEvent 0).2 (by decide)⟩

end ChainWatch
